import Mathlib

/-!
Shallow embedding of the ESP32-C3 OLED ticker/clock firmware
(`Serial2Oled-scoll_v4.ino`) and proofs about its command dispatcher,
time source and cooperative scheduler.

External collaborators (renderer width measurement, the system clock
`time(nullptr)`, the tick counter `millis()`, and the Wi-Fi join result)
are passed in as an explicit environment; everything else is translated
from the source.
-/

/-- Arduino `String::charAt`: out-of-range access yields the NUL character. -/
def charAt (s : String) (i : Nat) : Char := s.data.getD i (Char.ofNat 0)

/-- Arduino `String::substring(from, to)`: characters `from .. to-1`. -/
def substr (s : String) (a b : Nat) : String := ⟨(s.data.drop a).take (b - a)⟩

/-- Arduino `String::substring(from)`: drop the first `from` characters. -/
def strDrop (s : String) (n : Nat) : String := ⟨s.data.drop n⟩

/-- Arduino `String::startsWith`: prefix test on the character data. -/
def strStartsWith (s p : String) : Bool := p.data.isPrefixOf s.data

/-- Accumulate the value of a leading run of decimal digits (stops at the
first non-digit), as `atol` does after sign handling. -/
def digitsVal : List Char → Nat → Nat
  | [], acc => acc
  | c :: cs, acc => if c.isDigit then digitsVal cs (10 * acc + (c.toNat - 48)) else acc

/-- Skip leading C whitespace, as `atol` does. -/
def skipWs : List Char → List Char
  | [] => []
  | c :: cs =>
    if c = ' ' ∨ c = '\t' ∨ c = '\n' ∨ c = '\x0b' ∨ c = '\x0c' ∨ c = '\r'
    then skipWs cs else c :: cs

/-- Sign handling of `atol` after whitespace skipping. -/
def atolSigned : List Char → Int
  | '-' :: cs => -(digitsVal cs 0 : Int)
  | '+' :: cs => (digitsVal cs 0 : Int)
  | cs => (digitsVal cs 0 : Int)

/-- Arduino `String::toInt` (C `atol`): optional whitespace, optional sign,
leading digit run; a string with no leading digits parses as `0`. -/
def atol (s : String) : Int := atolSigned (skipWs s.data)

/-- Font selection levels, `enum FontMode`. -/
inductive FontMode where
  | F_SMALL
  | F_MEDIUM
  | F_LARGE
deriving DecidableEq, Repr

/-- The firmware's mutable globals that the dispatcher and scheduler touch. -/
structure DeviceState where
  msg : String
  tickerEnabled : Bool
  scrolling : Bool
  scroll_interval_ms : Int
  x : Int
  text_w : Int
  clockMode : Nat
  currentFont : FontMode
  manualClock : Bool
  manualEpochBase : Nat
  manualSetMillis : Nat
  manualDateKnown : Bool
  tzOffsetMinutes : Int
  WIFI_SSID : String
  WIFI_PASS : String
  wifiOK : Bool
deriving DecidableEq, Repr

/-- External collaborators frozen at one query instant: the renderer's
UTF-8 width measurement, `time(nullptr)`, `millis()`, and whether a Wi-Fi
join attempt would succeed. -/
structure Env where
  measure : FontMode → String → Int
  sysTime : Int
  millis : Nat
  wifiConnects : Bool

/-- Screen width in pixels (`W = 72`). -/
def Wpx : Int := 72

/-- Gap between the two scrolled copies of the text (`GAP = 16`). -/
def GAPpx : Int := 16

/-- Ticker frame period, `FRAME_INTERVAL_MS = 33`. -/
def FRAME_INTERVAL_MS : Nat := 33

/-- Clock frame period, `CLOCK_FRAME_MS = 200`. -/
def CLOCK_FRAME_MS : Nat := 200

/-- The sketch's `computeWidth`: measure `msg` in the current font and
clamp the cached width up to at least 1. -/
def computeWidth (env : Env) (st : DeviceState) : DeviceState :=
  let w := env.measure st.currentFont st.msg
  { st with text_w := if w < 1 then 1 else w }

/-- The sketch's `speedToInterval`: `n ≤ 0` gives 0, `n ≥ 9` gives 5 ms,
otherwise `110 − 10·n`. -/
def speedToInterval (n : Int) : Int :=
  if n ≤ 0 then 0
  else if n ≥ 9 then 5
  else 110 - n * 10

/-- Epoch plausibility test `epochValid`: at least 1700000000 (~2023). -/
def epochValid (e : Int) : Bool := decide (e ≥ 1700000000)

/-- The sketch's `wifiConnect`, abstracted over the join outcome: an empty
SSID fails immediately, otherwise `wifiOK` records the join result. -/
def wifiConnect (env : Env) (st : DeviceState) : DeviceState :=
  if st.WIFI_SSID = "" then { st with wifiOK := false }
  else { st with wifiOK := env.wifiConnects }

/-- The sketch's `handleCommand`: prefix dispatch over one input line,
mutating the device state. Translated branch by branch from the source. -/
def handleCommand (env : Env) (st : DeviceState) (line : String) : DeviceState :=
  if strStartsWith line "t/" then
    let c := if line.data.length > 2 then charAt line 2 else '0'
    { st with clockMode := if c = '1' then 1 else if c = '2' then 2 else 0 }
  else if strStartsWith line "tz/" then
    let n := atol (strDrop line 3)
    let n := if n < -12 then -12 else n
    let n := if n > 14 then 14 else n
    { st with tzOffsetMinutes := n * 60, clockMode := 0 }
  else if strStartsWith line "h/" then
    let c := charAt line 2
    let st := if c = '1' then { st with tickerEnabled := true } else st
    let st := if c = '0' then { st with tickerEnabled := false } else st
    { st with clockMode := 0 }
  else if strStartsWith line "s/" then
    let n := atol (strDrop line 2)
    let st :=
      if n = 0 then { st with scrolling := false, scroll_interval_ms := 0 }
      else if n ≥ 1 ∧ n ≤ 9 then
        { st with scrolling := true, scroll_interval_ms := speedToInterval n }
      else st
    { st with clockMode := 0 }
  else if strStartsWith line "f/" then
    let c := charAt line 2
    let st :=
      if c = '1' then { st with currentFont := FontMode.F_SMALL }
      else if c = '2' then { st with currentFont := FontMode.F_MEDIUM }
      else if c = '3' then { st with currentFont := FontMode.F_LARGE }
      else st
    let st := computeWidth env st
    { st with clockMode := 0 }
  else if strStartsWith line "ts/" ∧ line.data.length ≥ 11 then
    let HH := atol (substr line 3 5)
    let MM := atol (substr line 6 8)
    let SS := atol (substr line 9 11)
    let st :=
      if HH ≥ 0 ∧ HH < 24 ∧ MM ≥ 0 ∧ MM < 60 ∧ SS ≥ 0 ∧ SS < 60 then
        let now := env.sysTime
        let haveEpoch := epochValid now
        let baseMidnight : Nat :=
          if haveEpoch then (now - Int.tmod now 86400).toNat % 4294967296 else 0
        { st with
          manualEpochBase := (baseMidnight + (HH * 3600 + MM * 60 + SS).toNat) % 4294967296,
          manualSetMillis := env.millis % 4294967296,
          manualClock := true,
          manualDateKnown := haveEpoch }
      else st
    { st with clockMode := 0 }
  else if strStartsWith line "w/" then
    { st with WIFI_SSID := strDrop line 2, clockMode := 0 }
  else if strStartsWith line "wp/" then
    { st with WIFI_PASS := strDrop line 3, clockMode := 0 }
  else if strStartsWith line "wc/" then
    { wifiConnect env st with clockMode := 0 }
  else if strStartsWith line "wf/" then
    { st with WIFI_SSID := "", WIFI_PASS := "", wifiOK := false, clockMode := 0 }
  else
    let st := { st with msg := line, x := Wpx }
    let st := computeWidth env st
    { st with clockMode := 0 }

/-- The initial values of the globals at boot. -/
def initialState : DeviceState where
  msg := "Hei! æ ø å Æ Ø Å"
  tickerEnabled := true
  scrolling := true
  scroll_interval_ms := 100
  x := Wpx
  text_w := 0
  clockMode := 0
  currentFont := FontMode.F_SMALL
  manualClock := false
  manualEpochBase := 0
  manualSetMillis := 0
  manualDateKnown := false
  tzOffsetMinutes := 0
  WIFI_SSID := ""
  WIFI_PASS := ""
  wifiOK := false

/-- Unsigned 32-bit subtraction `a - b` of two tick values, the C
expression `t_now - deadline` on `uint32_t`. -/
def u32sub (a b : Nat) : Nat := (a % 4294967296 + (4294967296 - b % 4294967296)) % 4294967296

/-- Reinterpret an unsigned 32-bit value as a signed `int32_t`. -/
def toInt32 (n : Nat) : Int := if n % 4294967296 < 2147483648 then (n % 4294967296 : Nat) else (n % 4294967296 : Nat) - 4294967296

/-- The scheduler's deadline test `(int32_t)(t_now - deadline) >= 0`. -/
def deadlineReached (now deadline : Nat) : Bool := decide (0 ≤ toInt32 (u32sub now deadline))

/-- Current epoch seconds (UTC) from either the system clock or the manual
clock; `-1` when unknown (`getEpochNow`). The elapsed-milliseconds
subtraction is the unsigned 32-bit `millis() - manualSetMillis`. -/
def getEpochNow (env : Env) (st : DeviceState) : Int :=
  let now := env.sysTime
  if epochValid now then now
  else if st.manualClock then
    let elapsed : Nat := u32sub env.millis st.manualSetMillis / 1000
    if st.manualEpochBase = 0 then (elapsed : Int)
    else (st.manualEpochBase : Int) + (elapsed : Int)
  else -1

/-- Broken-down calendar time, the relevant fields of C `struct tm`. -/
structure Tm where
  tm_sec : Int
  tm_min : Int
  tm_hour : Int
  tm_mday : Int
  tm_mon : Int
  tm_year : Int
deriving DecidableEq, Repr

/-- C `gmtime_r`: decompose an epoch into UTC calendar fields, via the
standard civil-from-days calculation (proleptic Gregorian calendar). -/
def gmtimeR (t : Int) : Tm :=
  let days := Int.fdiv t 86400
  let secs := (t - days * 86400).toNat
  let z := days + 719468
  let era := Int.fdiv z 146097
  let doe := (z - era * 146097).toNat
  let yoe := (doe - doe / 1460 + doe / 36524 - doe / 146096) / 365
  let y := (yoe : Int) + era * 400
  let doy := doe - (365 * yoe + yoe / 4 - yoe / 100)
  let mp := (5 * doy + 2) / 153
  let d := (doy : Int) - (153 * mp + 2) / 5 + 1
  let m := (mp : Int) + (if mp < 10 then 3 else -9)
  let y := y + (if m ≤ 2 then 1 else 0)
  { tm_sec := secs % 60
    tm_min := secs / 60 % 60
    tm_hour := secs / 3600
    tm_mday := d
    tm_mon := m - 1
    tm_year := y - 1900 }

/-- The sketch's `getBrokenDownWithTZ`: fail on an unknown epoch, else
shift by the timezone offset and decompose. -/
def getBrokenDownWithTZ (env : Env) (st : DeviceState) : Option Tm :=
  let e := getEpochNow env st
  if e < 0 then none
  else some (gmtimeR (e + st.tzOffsetMinutes * 60))

/-- Zero-pad a digit string on the left to width `w`. -/
def padZeros (w : Nat) (s : String) : String :=
  ⟨List.replicate (w - s.data.length) '0' ++ s.data⟩

/-- The sketch's `two`: `snprintf "%02d"` into a 3-byte buffer (at most
two characters survive). -/
def two (v : Int) : String :=
  let s := if v < 0 then "-" ++ padZeros 1 (toString (-v)) else padZeros 2 (toString v)
  ⟨s.data.take 2⟩

/-- The sketch's `four`: `snprintf "%04d"` into a 5-byte buffer (at most
four characters survive). -/
def four (v : Int) : String :=
  let s := if v < 0 then "-" ++ padZeros 3 (toString (-v)) else padZeros 4 (toString v)
  ⟨s.data.take 4⟩

/-- The sketch's `getClockString`: `HH:MM:SS`, or `--:--:--` when the
epoch is unknown. -/
def getClockString (env : Env) (st : DeviceState) : String :=
  match getBrokenDownWithTZ env st with
  | none => "--:--:--"
  | some t => two t.tm_hour ++ ":" ++ two t.tm_min ++ ":" ++ two t.tm_sec

/-- The sketch's `getDateStringISO`: `YYYY-MM-DD`, or `----------` when
the epoch is unknown. -/
def getDateStringISO (env : Env) (st : DeviceState) : String :=
  match getBrokenDownWithTZ env st with
  | none => "----------"
  | some t => four (t.tm_year + 1900) ++ "-" ++ two (t.tm_mon + 1) ++ "-" ++ two t.tm_mday

/-- Wrap an integer into the `int16_t` range, the effect of the C
assignment `x -= 1` on an `int16_t` variable. -/
def wrap16 (n : Int) : Int := Int.emod (n + 32768) 65536 - 32768

/-- Scheduler state: the device state plus the three deadline tick
counters (kept reduced modulo 2^32, as `uint32_t` variables). -/
structure SchedState where
  st : DeviceState
  t_nextFrame : Nat
  t_nextScroll : Nat
  t_nextNtpCheck : Nat
deriving DecidableEq, Repr

/-- One iteration of the sketch's `loop` body at tick `t_now`, with the
serial-input drain modelled separately by `handleCommand` (no pending
lines here) and the actual frame drawing external. -/
def loopStep (s : SchedState) (t_now : Nat) : SchedState :=
  let s :=
    if deadlineReached t_now s.t_nextNtpCheck then
      { s with t_nextNtpCheck := (s.t_nextNtpCheck + 2000) % 4294967296 }
    else s
  if s.st.clockMode = 1 ∨ s.st.clockMode = 2 then
    if deadlineReached t_now s.t_nextFrame then
      { s with t_nextFrame := (s.t_nextFrame + CLOCK_FRAME_MS) % 4294967296 }
    else s
  else
    let s :=
      if s.st.tickerEnabled ∧ s.st.scrolling ∧ s.st.scroll_interval_ms > 0
          ∧ deadlineReached t_now s.t_nextScroll then
        let x1 := wrap16 (s.st.x - 1)
        let x2 := if x1 < -(s.st.text_w + GAPpx) then Wpx else x1
        { s with
          st := { s.st with x := x2 },
          t_nextScroll := (s.t_nextScroll + s.st.scroll_interval_ms.toNat) % 4294967296 }
      else s
    if deadlineReached t_now s.t_nextFrame then
      { s with t_nextFrame := (s.t_nextFrame + FRAME_INTERVAL_MS) % 4294967296 }
    else s

/-- Whether iteration of `loopStep` at tick `t` performs a one-pixel
scroll step (the guard of the scroll branch). -/
def scrollFires (s : SchedState) (t : Nat) : Bool :=
  decide (¬(s.st.clockMode = 1 ∨ s.st.clockMode = 2)
    ∧ s.st.tickerEnabled ∧ s.st.scrolling ∧ s.st.scroll_interval_ms > 0
    ∧ deadlineReached t s.t_nextScroll)

/-- Run `n` consecutive loop iterations, iteration `k` executing at tick
`times k`. -/
def runN (s : SchedState) (times : Nat → Nat) : Nat → SchedState
  | 0 => s
  | n + 1 => loopStep (runN s times n) (times n)

/-- A fixed concrete environment used by concrete evaluations: no valid
system epoch, tick counter at zero, any text measures 40 px. -/
def env0 : Env := { measure := fun _ _ => 40, sysTime := 0, millis := 0, wifiConnects := false }

/-- Shifting both a deadline and the current tick by the same true time
leaves the unsigned 32-bit difference equal to the elapsed time. -/
lemma u32sub_add_mod (a b : Nat) :
    u32sub ((a + b) % 4294967296) (a % 4294967296) = b % 4294967296 := by
  unfold u32sub; omega

/-- A deadline is reached whenever at most `2^31 - 1` ticks have elapsed
past it, regardless of counter wraparound. -/
lemma deadlineReached_add (a b : Nat) (hb : b < 2147483648) :
    deadlineReached ((a + b) % 4294967296) (a % 4294967296) = true := by
  unfold deadlineReached toInt32
  rw [u32sub_add_mod]
  simp only [decide_eq_true_eq]
  split_ifs <;> omega

/-- C1: for every input line that does not begin with "t/", after
`handleCommand` returns the clock display mode is Off (`clockMode = 0`),
regardless of the prior state; this covers every recognized non-`t/`
prefix command and every plain-text line. -/
theorem C1_nonTimeCommandForcesClockOff (env : Env) (st : DeviceState) (line : String)
    (h : strStartsWith line "t/" = false) :
    (handleCommand env st line).clockMode = 0 := by
  unfold handleCommand
  rw [h]
  simp only [Bool.false_eq_true, if_false]
  repeat first | rfl | split

/-- Witness for C1 at the plain-text line "hello". -/
theorem C1_witness :
    strStartsWith "hello" "t/" = false ∧
    (handleCommand env0 initialState "hello").clockMode = 0 :=
  ⟨by decide, C1_nonTimeCommandForcesClockOff env0 initialState "hello" (by decide)⟩

/-- C2 counterexample: the claim's interval formula `clamp(110 − 10·n, 5, 100)`
gives 20 at n = 9, but the code (`speedToInterval`) stores 5 there, so the
claimed equality fails at "s/9". -/
theorem C2_counterexample :
    (handleCommand env0 initialState "s/9").scroll_interval_ms = 5 ∧
    ¬ ((handleCommand env0 initialState "s/9").scroll_interval_ms
        = max 5 (min 100 (110 - 10 * 9))) := by decide

/-- C2 amended: "s/n" with n in {1..9} enables scrolling and sets the
interval to `110 − 10·n` ms for n ≤ 8 and to 5 ms for n = 9; "s/0"
disables scrolling (and zeroes the interval). -/
theorem C2_amended_speed_mapping (env : Env) (st : DeviceState) (n : Nat)
    (h1 : 1 ≤ n) (h9 : n ≤ 9) :
    (handleCommand env st ("s/" ++ toString n)).scrolling = true ∧
    (handleCommand env st ("s/" ++ toString n)).scroll_interval_ms
      = (if n = 9 then 5 else 110 - 10 * (n : Int)) ∧
    (handleCommand env st "s/0").scrolling = false ∧
    (handleCommand env st "s/0").scroll_interval_ms = 0 := by
  interval_cases n <;>
    exact ⟨by simp +decide [handleCommand], by simp +decide [handleCommand],
           by simp +decide [handleCommand], by simp +decide [handleCommand]⟩

/-- Witness for the amended C2 at n = 9 and at "s/0". -/
theorem C2_witness :
    (handleCommand env0 initialState ("s/" ++ toString 9)).scrolling = true ∧
    (handleCommand env0 initialState ("s/" ++ toString 9)).scroll_interval_ms = 5 ∧
    (handleCommand env0 initialState "s/0").scrolling = false := by
  have h := C2_amended_speed_mapping env0 initialState 9 (by decide) (by decide)
  exact ⟨h.1, h.2.1, h.2.2.1⟩

/-- Environment for the C3 evaluation: no valid system epoch (`sysTime = 0`)
and the tick counter at 1000 ms. -/
def env3 : Env := { measure := fun _ _ => 40, sysTime := 0, millis := 1000, wifiConnects := false }

/-- Device state after seeding the manual clock with "ts/09:05:07" while no
validated network epoch exists: `manualClock = true`, `manualDateKnown = false`. -/
def st3 : DeviceState := handleCommand env3 initialState "ts/09:05:07"

/-- C3 (code bug): with the manual clock seeded while no validated epoch
existed (`manualDateKnown = false`) and still no valid epoch at query time,
the time renders correctly as 09:05:07 but the date renders as the computed
fake-epoch calendar date "1970-01-01", not as the unknown-date sentinel
"----------": `manualDateKnown` is never consulted by the formatting path,
although the source comments intend a "--" date here. -/
theorem C3_dateKnownFalseShowsComputedDate :
    st3.manualClock = true ∧ st3.manualDateKnown = false ∧
    epochValid env3.sysTime = false ∧
    getClockString env3 st3 = "09:05:07" ∧
    getDateStringISO env3 st3 = "1970-01-01" ∧
    getDateStringISO env3 st3 ≠ "----------" := by decide

/-- C4 device state for the counterexample: clock showing, scrolling on. -/
def stC4 : DeviceState := { initialState with clockMode := 1 }

/-- C4 counterexample: the malformed command "s/x" (payload outside the
digit grammar) does NOT leave the device state unchanged: it disables
scrolling (the non-numeric payload parses as 0, taking the "s/0" path) and
forces the clock mode to Off. -/
theorem C4_counterexample :
    stC4.scrolling = true ∧ stC4.clockMode = 1 ∧
    (handleCommand env0 stC4 "s/x").scrolling = false ∧
    (handleCommand env0 stC4 "s/x").clockMode = 0 ∧
    handleCommand env0 stC4 "s/x" ≠ stC4 := by decide

/-- C4 amended: a malformed argument is silently ignored only for the
`h/`, `f/` and `ts/` commands and only as far as their target fields go
(visibility, font, manual-clock fields are unchanged); every such command
still forces `clockMode = 0`, and a non-numeric payload to `s/` or `tz/`
parses as 0, so "s/x" disables scrolling and "tz/abc" zeroes the timezone
offset. No response is ever sent to the sender. -/
theorem C4_amendedMalformedArguments (env : Env) (st : DeviceState) :
    ((handleCommand env st "h/9").tickerEnabled = st.tickerEnabled ∧
     (handleCommand env st "h/9").clockMode = 0) ∧
    (handleCommand env st "f/9").currentFont = st.currentFont ∧
    ((handleCommand env st "ts/25:00:00").manualClock = st.manualClock ∧
     (handleCommand env st "ts/25:00:00").manualEpochBase = st.manualEpochBase ∧
     (handleCommand env st "ts/25:00:00").manualSetMillis = st.manualSetMillis ∧
     (handleCommand env st "ts/25:00:00").manualDateKnown = st.manualDateKnown) ∧
    ((handleCommand env st "s/x").scrolling = false ∧
     (handleCommand env st "s/x").scroll_interval_ms = 0) ∧
    (handleCommand env st "tz/abc").tzOffsetMinutes = 0 := by
  simp +decide [handleCommand, computeWidth]

/-- C5: `getEpochNow` resolves in fixed priority: a plausible system epoch
wins; else an active manual clock yields `epochBase` plus elapsed whole
seconds; else the result is Unknown (−1); and on Unknown the formatters
return exactly "--:--:--" and "----------". -/
theorem C5_epochPriorityAndPlaceholders (env : Env) (st : DeviceState)
    (hle : st.manualSetMillis ≤ env.millis) (hm : env.millis < 4294967296) :
    (epochValid env.sysTime = true → getEpochNow env st = env.sysTime) ∧
    (epochValid env.sysTime = false → st.manualClock = true →
      getEpochNow env st
        = (st.manualEpochBase : Int) + (((env.millis - st.manualSetMillis) / 1000 : Nat) : Int)) ∧
    (epochValid env.sysTime = false → st.manualClock = false → getEpochNow env st = -1) ∧
    (getEpochNow env st = -1 →
      getClockString env st = "--:--:--" ∧ getDateStringISO env st = "----------") := by
  have hsub : u32sub env.millis st.manualSetMillis = env.millis - st.manualSetMillis := by
    unfold u32sub; omega
  refine ⟨fun h => by simp [getEpochNow, h], fun h hmc => ?_,
          fun h hmc => by simp [getEpochNow, h, hmc], fun h => ?_⟩
  · simp only [getEpochNow, h, hmc, Bool.false_eq_true, if_false, if_true, hsub]
    split_ifs with h0 <;> simp [h0]
  · constructor
    · simp [getClockString, getBrokenDownWithTZ, h]
    · simp [getDateStringISO, getBrokenDownWithTZ, h]

/-- Witness for C5: with no valid system epoch and no manual clock, the
epoch is Unknown and both placeholder strings are produced. -/
theorem C5_witness :
    getEpochNow env0 initialState = -1 ∧
    getClockString env0 initialState = "--:--:--" ∧
    getDateStringISO env0 initialState = "----------" := by
  have h := C5_epochPriorityAndPlaceholders env0 initialState (by decide) (by decide)
  have he : getEpochNow env0 initialState = -1 := h.2.2.1 (by decide) (by decide)
  exact ⟨he, (h.2.2.2 he).1, (h.2.2.2 he).2⟩

/-- When the scroll branch's guard holds, one loop iteration performs the
scroll step, advances the scroll deadline additively by the interval, and
preserves the mode/ticker/speed fields. -/
lemma loopStep_scroll (s : SchedState) (t : Nat)
    (hmode : s.st.clockMode = 0) (ht : s.st.tickerEnabled = true)
    (hs : s.st.scrolling = true) (hpos : 0 < s.st.scroll_interval_ms)
    (hdr : deadlineReached t s.t_nextScroll = true) :
    scrollFires s t = true ∧
    (loopStep s t).t_nextScroll
      = (s.t_nextScroll + s.st.scroll_interval_ms.toNat) % 4294967296 ∧
    (loopStep s t).st.clockMode = 0 ∧
    (loopStep s t).st.tickerEnabled = true ∧
    (loopStep s t).st.scrolling = true ∧
    (loopStep s t).st.scroll_interval_ms = s.st.scroll_interval_ms := by
  unfold loopStep scrollFires
  split_ifs <;> simp_all <;> split_ifs <;> simp_all

/-- Invariant of the simulated loop: running `k` iterations, iteration `m`
at tick `t0 + m·I + j m` with jitter `j m < I`, keeps the ticker scrolling
and leaves the scroll deadline at exactly `t0 + k·I` (mod 2^32). -/
lemma runN_inv (d : DeviceState) (fr ntp t0 I : Nat) (j : Nat → Nat)
    (hI : 0 < I) (hI31 : I ≤ 2147483648)
    (hmode : d.clockMode = 0) (ht : d.tickerEnabled = true) (hs : d.scrolling = true)
    (hint : d.scroll_interval_ms = (I : Int)) (hj : ∀ k, j k < I) :
    ∀ k,
      (runN ⟨d, fr, t0 % 4294967296, ntp⟩ (fun m => (t0 + m * I + j m) % 4294967296) k).st.clockMode = 0 ∧
      (runN ⟨d, fr, t0 % 4294967296, ntp⟩ (fun m => (t0 + m * I + j m) % 4294967296) k).st.tickerEnabled = true ∧
      (runN ⟨d, fr, t0 % 4294967296, ntp⟩ (fun m => (t0 + m * I + j m) % 4294967296) k).st.scrolling = true ∧
      (runN ⟨d, fr, t0 % 4294967296, ntp⟩ (fun m => (t0 + m * I + j m) % 4294967296) k).st.scroll_interval_ms = (I : Int) ∧
      (runN ⟨d, fr, t0 % 4294967296, ntp⟩ (fun m => (t0 + m * I + j m) % 4294967296) k).t_nextScroll = (t0 + k * I) % 4294967296 := by
  intro k
  induction k with
  | zero => simpa [runN] using ⟨hmode, ht, hs, hint⟩
  | succ k ih =>
    obtain ⟨h1, h2, h3, h4, h5⟩ := ih
    have hdr : deadlineReached ((t0 + k * I + j k) % 4294967296)
        ((runN ⟨d, fr, t0 % 4294967296, ntp⟩ (fun m => (t0 + m * I + j m) % 4294967296) k).t_nextScroll) = true := by
      rw [h5]
      exact deadlineReached_add (t0 + k * I) (j k) (by have := hj k; omega)
    have hpos : 0 < (runN ⟨d, fr, t0 % 4294967296, ntp⟩ (fun m => (t0 + m * I + j m) % 4294967296) k).st.scroll_interval_ms := by
      rw [h4]; exact_mod_cast hI
    have step := loopStep_scroll _ _ h1 h2 h3 hpos hdr
    simp only [runN]
    refine ⟨step.2.2.1, step.2.2.2.1, step.2.2.2.2.1, by rw [step.2.2.2.2.2]; exact h4, ?_⟩
    rw [step.2.1, h5, h4]
    simp only [Int.toNat_natCast, Nat.mod_add_mod]
    congr 1
    ring

/-- C6: with the ticker scrolling at interval `I`, simulating `N`
consecutive loop iterations, iteration `k` executing at tick
`t0 + k·I + j k` with jitter `j k < I`, every iteration fires exactly one
one-pixel scroll step and the scroll deadline ends at exactly `t0 + N·I`
(mod 2^32); moreover every deadline of `loopStep` (probe, frame, scroll)
only ever advances additively by its own period, never re-armed from the
current tick. -/
theorem C6_additiveSchedulingDriftFree (d : DeviceState) (fr ntp t0 I N : Nat) (j : Nat → Nat)
    (hI : 0 < I) (hI31 : I ≤ 2147483648)
    (hmode : d.clockMode = 0) (ht : d.tickerEnabled = true) (hs : d.scrolling = true)
    (hint : d.scroll_interval_ms = (I : Int)) (hj : ∀ k, j k < I) :
    (∀ k, k < N →
      scrollFires (runN ⟨d, fr, t0 % 4294967296, ntp⟩ (fun m => (t0 + m * I + j m) % 4294967296) k)
        ((t0 + k * I + j k) % 4294967296) = true) ∧
    (runN ⟨d, fr, t0 % 4294967296, ntp⟩ (fun m => (t0 + m * I + j m) % 4294967296) N).t_nextScroll
      = (t0 + N * I) % 4294967296 ∧
    (∀ (u : SchedState) (tk : Nat),
      ((loopStep u tk).t_nextNtpCheck = u.t_nextNtpCheck ∨
       (loopStep u tk).t_nextNtpCheck = (u.t_nextNtpCheck + 2000) % 4294967296) ∧
      ((loopStep u tk).t_nextFrame = u.t_nextFrame ∨
       (loopStep u tk).t_nextFrame = (u.t_nextFrame + CLOCK_FRAME_MS) % 4294967296 ∨
       (loopStep u tk).t_nextFrame = (u.t_nextFrame + FRAME_INTERVAL_MS) % 4294967296) ∧
      ((loopStep u tk).t_nextScroll = u.t_nextScroll ∨
       (loopStep u tk).t_nextScroll = (u.t_nextScroll + u.st.scroll_interval_ms.toNat) % 4294967296)) := by
  refine ⟨fun k hk => ?_, (runN_inv d fr ntp t0 I j hI hI31 hmode ht hs hint hj N).2.2.2.2,
          fun u tk => ?_⟩
  · obtain ⟨h1, h2, h3, h4, h5⟩ := runN_inv d fr ntp t0 I j hI hI31 hmode ht hs hint hj k
    have hdr : deadlineReached ((t0 + k * I + j k) % 4294967296)
        ((runN ⟨d, fr, t0 % 4294967296, ntp⟩ (fun m => (t0 + m * I + j m) % 4294967296) k).t_nextScroll) = true := by
      rw [h5]
      exact deadlineReached_add (t0 + k * I) (j k) (by have := hj k; omega)
    have hpos : 0 < (runN ⟨d, fr, t0 % 4294967296, ntp⟩ (fun m => (t0 + m * I + j m) % 4294967296) k).st.scroll_interval_ms := by
      rw [h4]; exact_mod_cast hI
    exact (loopStep_scroll _ _ h1 h2 h3 hpos hdr).1
  · rcases Bool.eq_false_or_eq_true (deadlineReached tk u.t_nextNtpCheck) with hA | hA <;>
    by_cases hB : u.st.clockMode = 1 ∨ u.st.clockMode = 2 <;>
    by_cases hC : u.st.tickerEnabled = true ∧ u.st.scrolling = true ∧
      0 < u.st.scroll_interval_ms ∧ deadlineReached tk u.t_nextScroll = true <;>
    rcases Bool.eq_false_or_eq_true (deadlineReached tk u.t_nextFrame) with hD | hD <;>
    simp [loopStep, hA, hB, hC, hD]

/-- Witness for C6: three iterations at interval 100 ms with 4 ms jitter,
starting 6 ticks before the 32-bit counter wraps; each iteration fires and
the deadline lands at exactly `t0 + 300` mod 2^32. -/
theorem C6_witness :
    scrollFires (runN ⟨initialState, 0, 4294967290 % 4294967296, 0⟩
        (fun m => (4294967290 + m * 100 + 4) % 4294967296) 0)
      ((4294967290 + 0 * 100 + 4) % 4294967296) = true ∧
    scrollFires (runN ⟨initialState, 0, 4294967290 % 4294967296, 0⟩
        (fun m => (4294967290 + m * 100 + 4) % 4294967296) 1)
      ((4294967290 + 1 * 100 + 4) % 4294967296) = true ∧
    scrollFires (runN ⟨initialState, 0, 4294967290 % 4294967296, 0⟩
        (fun m => (4294967290 + m * 100 + 4) % 4294967296) 2)
      ((4294967290 + 2 * 100 + 4) % 4294967296) = true ∧
    (runN ⟨initialState, 0, 4294967290 % 4294967296, 0⟩
        (fun m => (4294967290 + m * 100 + 4) % 4294967296) 3).t_nextScroll
      = (4294967290 + 3 * 100) % 4294967296 := by
  have h := C6_additiveSchedulingDriftFree initialState 0 0 4294967290 100 3 (fun _ => 4)
    (by decide) (by decide) rfl rfl rfl rfl (fun _ => (by decide : (4 : Nat) < 100))
  exact ⟨h.1 0 (by decide), h.1 1 (by decide), h.1 2 (by decide), h.2.1⟩

/-- C7: the deadline test `(int32_t)(now − deadline) ≥ 0`, as embedded in
`deadlineReached`, decides "deadline reached" correctly for every pair of
true (unbounded) times whose separation is below `2^31`, even when the
32-bit tick counter wrapped between arming and testing. -/
theorem C7_wraparoundSafeDeadlineTest (a b : Nat)
    (h1 : a - b < 2147483648) (h2 : b - a < 2147483648) :
    deadlineReached (a % 4294967296) (b % 4294967296) = decide (b ≤ a) := by
  unfold deadlineReached toInt32 u32sub
  rw [decide_eq_decide]
  split_ifs <;> omega

/-- Witness for C7 across a counter overflow: the deadline 4294967291 was
armed 5 ticks before wrap, the test runs 10 ticks after wrap. -/
theorem C7_witness :
    4294967306 - 4294967291 < 2147483648 ∧
    deadlineReached (4294967306 % 4294967296) (4294967291 % 4294967296)
      = decide ((4294967291 : Nat) ≤ 4294967306) :=
  ⟨by decide, C7_wraparoundSafeDeadlineTest 4294967306 4294967291 (by decide) (by decide)⟩

/-- C8: after any "tz/…" command the stored offset is the clamp of the
parsed hour count to [−12, 14] times 60, hence always a multiple of 60
lying in [−720, 840]; in-range n gives exactly n·60, out-of-range n the
clamped bound. -/
theorem C8_tzClampAndGranularity (env : Env) (st : DeviceState) (rest : String) :
    (handleCommand env st ("tz/" ++ rest)).tzOffsetMinutes
      = 60 * max (-12) (min 14 (atol rest)) ∧
    (60 : Int) ∣ (handleCommand env st ("tz/" ++ rest)).tzOffsetMinutes ∧
    -720 ≤ (handleCommand env st ("tz/" ++ rest)).tzOffsetMinutes ∧
    (handleCommand env st ("tz/" ++ rest)).tzOffsetMinutes ≤ 840 := by
  have hp1 : strStartsWith ("tz/" ++ rest) "t/" = false := by
    simp [strStartsWith, List.isPrefixOf]
  have hp2 : strStartsWith ("tz/" ++ rest) "tz/" = true := by
    simp [strStartsWith, List.isPrefixOf]
  have hp3 : strDrop ("tz/" ++ rest) 3 = rest := by simp [strDrop]
  have key : (handleCommand env st ("tz/" ++ rest)).tzOffsetMinutes =
      (if (if atol rest < -12 then (-12 : Int) else atol rest) > 14 then 14
       else if atol rest < -12 then (-12 : Int) else atol rest) * 60 := by
    unfold handleCommand
    rw [hp1, hp2, hp3]
    simp only [Bool.false_eq_true, if_false, if_true]
  rw [key]
  refine ⟨by split_ifs <;> omega, by split_ifs <;> omega,
          by split_ifs <;> omega, by split_ifs <;> omega⟩

/-- C9: dispatching "t/0", "t/1" or "t/2" only changes `clockMode` (the
whole state equals the prior state with just that field replaced), and
while the clock is displayed a loop iteration leaves the entire device
state, including all ticker fields and the scroll deadline, untouched, so
the ticker resumes with its prior values when the clock mode returns to
Off. -/
theorem C9_timeCommandsTouchOnlyClockMode (env : Env) (st : DeviceState)
    (s : SchedState) (t : Nat) (hclk : s.st.clockMode = 1 ∨ s.st.clockMode = 2) :
    handleCommand env st "t/0" = { st with clockMode := 0 } ∧
    handleCommand env st "t/1" = { st with clockMode := 1 } ∧
    handleCommand env st "t/2" = { st with clockMode := 2 } ∧
    (loopStep s t).st = s.st ∧
    (loopStep s t).t_nextScroll = s.t_nextScroll := by
  refine ⟨by simp +decide [handleCommand], by simp +decide [handleCommand],
          by simp +decide [handleCommand], ?_, ?_⟩ <;>
  · unfold loopStep
    split_ifs <;> simp_all <;> split <;> rfl

/-- Scheduler state for the C9 witness: clock mode TimeOnly. -/
def sched9 : SchedState := ⟨{ initialState with clockMode := 1 }, 0, 0, 0⟩

/-- Witness for C9 with the clock displayed (mode 1) at tick 5. -/
theorem C9_witness :
    handleCommand env0 initialState "t/1" = { initialState with clockMode := 1 } ∧
    (loopStep sched9 5).st = sched9.st ∧
    (loopStep sched9 5).t_nextScroll = sched9.t_nextScroll := by
  have h := C9_timeCommandsTouchOnlyClockMode env0 initialState sched9 5 (Or.inl rfl)
  exact ⟨h.2.1, h.2.2.2.1, h.2.2.2.2⟩

/-- C10: a "ts/" line shorter than 11 characters, such as "ts/9:05:07",
is not handled as a time-set command: it falls through to the plain-text
branch, replacing the ticker text with the literal line (prefix included),
resetting the scroll offset to the screen width, recomputing the text
width, forcing the clock mode to Off, and leaving every manual-clock field
unchanged. -/
theorem C10_shortTsLineIsPlainText (env : Env) (st : DeviceState) :
    (handleCommand env st "ts/9:05:07").msg = "ts/9:05:07" ∧
    (handleCommand env st "ts/9:05:07").x = 72 ∧
    (handleCommand env st "ts/9:05:07").text_w =
      (if env.measure st.currentFont "ts/9:05:07" < 1 then 1
       else env.measure st.currentFont "ts/9:05:07") ∧
    (handleCommand env st "ts/9:05:07").clockMode = 0 ∧
    (handleCommand env st "ts/9:05:07").manualClock = st.manualClock ∧
    (handleCommand env st "ts/9:05:07").manualEpochBase = st.manualEpochBase ∧
    (handleCommand env st "ts/9:05:07").manualSetMillis = st.manualSetMillis ∧
    (handleCommand env st "ts/9:05:07").manualDateKnown = st.manualDateKnown := by
  simp +decide [handleCommand, computeWidth, Wpx]
